import Mathlib

/-!
Shallow embedding of the call-session controller (CallEntity), the conversation
verification-state handler and the backend request queue of the wire-webapp
client, together with proofs of the specified properties.

The pure fragments of the JavaScript source are translated into executable Lean
definitions; the stateful methods become explicit state-passing functions on a
record type mirroring the mutable fields they touch, and the observable side
effects (injected events, timer scheduling, media-stream resets) are returned in
outcome records.  Collaborators that are outside the translated sources
(PromiseQueue, QUEUE_STATE, getRandomNumber, the participant entity internals)
are modelled from the specification and marked as such in their doc comments.
-/

namespace Wire

/-- Call states of the call-session state machine (enum CALL_STATE). -/
inductive CALL_STATE where
  | UNKNOWN
  | INCOMING
  | OUTGOING
  | CONNECTING
  | ONGOING
  | DISCONNECTING
  | REJECTED
  | ENDED
deriving DecidableEq, Repr

/-- Termination reasons of a call (enum TERMINATION_REASON). -/
inductive TERMINATION_REASON where
  | SELF_USER
  | GROUP_CHECK
  | MISSED
  | COMPLETED
  | OTHER_USER
  | CONNECTION_DROP
  | MEMBER_LEAVE
  | TIMEOUT
deriving DecidableEq, Repr

/-- Media types (enum MediaType). -/
inductive MediaType where
  | NONE
  | AUDIO
  | AUDIO_VIDEO
  | VIDEO
  | SCREEN
deriving DecidableEq, Repr

/-- Call error kinds (z.error.CallError.TYPE). -/
inductive CallErrorType where
  | NOT_FOUND
  | WRONG_STATE
  | WRONG_SENDER
deriving DecidableEq, Repr

/-- Call message entity: the fields of CallMessageEntity that the translated
methods read or write.  The flag impliesNegotiationUnnecessary models the
property-sync payload deciding that negotiation can be skipped. -/
structure CallMessageEntity where
  clientId : Option String
  sessionId : Option String
  userId : Option String
  impliesNegotiationUnnecessary : Bool
deriving DecidableEq, Repr

/-- Participant of a call (ParticipantEntity): user id, the client id bound by
the first verified message, the session id, the JOAAT hash of the user and the
assigned audio panning. -/
structure ParticipantEntity where
  id : String
  clientId : Option String
  sessionId : Option String
  joaatHash : Nat
  panning : ℚ
deriving DecidableEq, Repr

/-- Group-check heartbeat timer: either the outbound send-group-check timer
with its randomly drawn delay, or the verify timer with the fixed activity
delay (both in seconds).  A call entity holds at most one such timer, matching
the single groupCheckTimeoutId field of the source. -/
inductive GroupCheckTimer where
  | send (delaySeconds : Nat)
  | verify (delaySeconds : Nat)
deriving DecidableEq, Repr

/-- Mutable fields of CallEntity that the translated methods touch. -/
structure CallEntity where
  selfUserId : String
  creatingUserId : String
  isGroup : Bool
  isConnected : Bool
  wasConnected : Bool
  state : CALL_STATE
  participants : List ParticipantEntity
  terminationReason : Option TERMINATION_REASON
  groupCheckTimeout : Option GroupCheckTimer
  stateTimeoutPending : Bool
deriving DecidableEq, Repr

/-- Configuration constant CallEntity.CONFIG.GROUP_CHECK.ACTIVITY_TIMEOUT,
in seconds. -/
def GROUP_CHECK_ACTIVITY_TIMEOUT : Nat := 2 * 60

/-- Configuration constant CallEntity.CONFIG.GROUP_CHECK.MAXIMUM_TIMEOUT,
in seconds. -/
def GROUP_CHECK_MAXIMUM_TIMEOUT : Nat := 90

/-- Configuration constant CallEntity.CONFIG.GROUP_CHECK.MINIMUM_TIMEOUT,
in seconds. -/
def GROUP_CHECK_MINIMUM_TIMEOUT : Nat := 60

/-- Modelled from the spec: getRandomNumber (utils/NumberUtil, not among the
sources) returns a uniformly random integer in the inclusive range
[minimum, maximum]; the randomness source is made explicit as a seed
argument. -/
def getRandomNumber (minimum maximum seed : Nat) : Nat :=
  minimum + seed % (maximum - minimum + 1)

/-- Translation of CallEntity._clearGroupCheckTimeout: clearing the timer
handle is guarded by its existence in the source and leaves no timer behind. -/
def CallEntity.clearGroupCheckTimeout (c : CallEntity) : CallEntity :=
  { c with groupCheckTimeout := none }

/-- Translation of CallEntity._clearStateTimeout. -/
def CallEntity.clearStateTimeout (c : CallEntity) : CallEntity :=
  { c with stateTimeoutPending := false }

/-- Translation of CallEntity._clearTimeouts: clears the flow timers (not part
of this model), the group-check timer and the state timer. -/
def CallEntity.clearTimeouts (c : CallEntity) : CallEntity :=
  (c.clearGroupCheckTimeout).clearStateTimeout

/-- Translation of CallEntity._setSendGroupCheckTimeout: draws a random delay
in [MINIMUM_TIMEOUT, MAXIMUM_TIMEOUT] seconds and installs the send timer. -/
def CallEntity.setSendGroupCheckTimeout (c : CallEntity) (seed : Nat) : CallEntity :=
  let timeoutInSeconds := getRandomNumber GROUP_CHECK_MINIMUM_TIMEOUT GROUP_CHECK_MAXIMUM_TIMEOUT seed
  { c with groupCheckTimeout := some (GroupCheckTimer.send timeoutInSeconds) }

/-- Translation of CallEntity._setVerifyGroupCheckTimeout: installs the verify
timer with the fixed ACTIVITY_TIMEOUT delay. -/
def CallEntity.setVerifyGroupCheckTimeout (c : CallEntity) : CallEntity :=
  { c with groupCheckTimeout := some (GroupCheckTimer.verify GROUP_CHECK_ACTIVITY_TIMEOUT) }

/-- Translation of CallEntity.scheduleGroupCheck: clears any existing
group-check timer, then installs the send timer when the call is connected and
the verify timer otherwise. -/
def CallEntity.scheduleGroupCheck (c : CallEntity) (seed : Nat) : CallEntity :=
  let c1 := c.clearGroupCheckTimeout
  if c1.isConnected then c1.setSendGroupCheckTimeout seed else c1.setVerifyGroupCheckTimeout

/-- Outcome of CallEntity.deactivateCall: the updated entity, the boolean the
promise resolves with, the number of callingRepository.deleteCall invocations,
the injected deactivation events (message and termination reason), whether the
media stream was reset and whether the group-check heartbeat was
rescheduled. -/
structure DeactivateOutcome where
  call : CallEntity
  wasDeleted : Bool
  deleteCallCalls : Nat
  injectedDeactivationEvents : List (CallMessageEntity × TERMINATION_REASON)
  mediaStreamReset : Bool
  rescheduledGroupCheck : Bool
deriving DecidableEq, Repr

/-- Translation of CallEntity._deleteCall: computes the deactivation reason
(MISSED when the call was never connected, COMPLETED otherwise), stamps the
creating user onto the message, injects one deactivation event and deletes the
call through the calling repository. -/
def CallEntity.deleteCallInternal (c : CallEntity) (callMessageEntity : CallMessageEntity) :
    CallEntity × (CallMessageEntity × TERMINATION_REASON) :=
  let reason := if ¬ c.wasConnected then TERMINATION_REASON.MISSED else TERMINATION_REASON.COMPLETED
  let stamped := { callMessageEntity with userId := some c.creatingUserId }
  (c, (stamped, reason))

/-- Translation of CallEntity.deactivateCall.  The JavaScript expression
computing everyoneLeft parses as (participants().length <= 0 + fromSelf) 1 0
by operator precedence, so the call is torn down exactly when the participant
count is at most 1 for a self-triggered deactivation and at most 0 otherwise,
or when the termination reason is GROUP_CHECK.  Otherwise group calls
reschedule the heartbeat and the media stream is reset. -/
def CallEntity.deactivateCall (c : CallEntity) (callMessageEntity : CallMessageEntity)
    (fromSelf : Bool) (terminationReason : TERMINATION_REASON) (seed : Nat) :
    DeactivateOutcome :=
  let c1 := c.clearTimeouts
  let everyoneLeft := decide (c1.participants.length ≤ if fromSelf then 1 else 0)
  let onGroupCheck := decide (terminationReason = TERMINATION_REASON.GROUP_CHECK)
  if everyoneLeft || onGroupCheck then
    let c2 := { c1 with terminationReason := some terminationReason }
    let (c3, event) := c2.deleteCallInternal callMessageEntity
    { call := c3
      wasDeleted := true
      deleteCallCalls := 1
      injectedDeactivationEvents := [event]
      mediaStreamReset := false
      rescheduledGroupCheck := false }
  else
    let c2 := if c1.isGroup then c1.scheduleGroupCheck seed else c1
    { call := c2
      wasDeleted := false
      deleteCallCalls := 0
      injectedDeactivationEvents := []
      mediaStreamReset := true
      rescheduledGroupCheck := c1.isGroup }

/-- Translation of the pure computed CallEntity.canConnectState: membership of
the current state in the CALL_STATE_GROUP.CAN_CONNECT group.  The group
constant itself is not among the sources, so it is kept as an explicit
argument and the properties below hold for every choice of the group. -/
def CallEntity.canConnectState (c : CallEntity) (CAN_CONNECT : List CALL_STATE) : Bool :=
  CAN_CONNECT.contains c.state

/-- Outcome of CallEntity.joinCall: the updated entity, whether the state was
set to CONNECTING, and which join flow was triggered (group negotiation start
message, or direct 1:1 participant add). -/
structure JoinOutcome where
  call : CallEntity
  setConnecting : Bool
  startedGroupNegotiation : Bool
  added1to1Participant : Bool
deriving DecidableEq, Repr

/-- Translation of CallEntity.joinCall: moves to CONNECTING exactly when the
current state is in the CAN_CONNECT group, then triggers the group or 1:1 join
flow.  The join flows only send messages or add participants; they never write
the state field, so they are recorded as outcome flags. -/
def CallEntity.joinCall (c : CallEntity) (CAN_CONNECT : List CALL_STATE)
    (_mediaType : MediaType) : JoinOutcome :=
  let eligible := c.canConnectState CAN_CONNECT
  let c1 := if eligible then { c with state := CALL_STATE.CONNECTING } else c
  { call := c1
    setConnecting := eligible
    startedGroupNegotiation := c1.isGroup
    added1to1Participant := ¬ c1.isGroup }

/-- Modelled from the spec: the Jenkins one-at-a-time hash of a user identity
(User.joaatHash, not among the sources), a stable hash over the characters of
the user id computed in 32-bit arithmetic. -/
def joaat (s : String) : Nat :=
  let step := fun (h : Nat) (ch : Char) =>
    let h1 := (h + ch.toNat) % 2 ^ 32
    let h2 := (h1 + h1 * 2 ^ 10) % 2 ^ 32
    h2 ^^^ h2 / 2 ^ 6
  let h := s.data.foldl step 0
  let h1 := (h + h * 2 ^ 3) % 2 ^ 32
  let h2 := h1 ^^^ h1 / 2 ^ 11
  (h2 + h2 * 2 ^ 15) % 2 ^ 32

/-- Translation of CallEntity.getParticipantById: the loop returns the first
participant whose id equals the given user id and otherwise rejects with the
NOT_FOUND call error.  The second component is the participant list as left by
the call; the loop only reads, so it equals the input. -/
def CallEntity.getParticipantById (c : CallEntity) (userId : String) :
    Except CallErrorType ParticipantEntity × CallEntity :=
  (match c.participants.find? (fun participantEntity => participantEntity.id == userId) with
    | some participantEntity => Except.ok participantEntity
    | none => Except.error CallErrorType.NOT_FOUND,
   c)

/-- Modelled from the spec: ParticipantEntity.verifyClientId (not among the
sources) binds the client id on the first message and fails with WRONG_SENDER
when a later message carries a different client id. -/
def ParticipantEntity.verifyClientId (p : ParticipantEntity) (clientId : String) :
    Except CallErrorType ParticipantEntity :=
  match p.clientId with
  | none => Except.ok { p with clientId := some clientId }
  | some bound =>
    if bound = clientId then Except.ok p else Except.error CallErrorType.WRONG_SENDER

/-- Modelled from the spec: ParticipantEntity.updateState (not among the
sources) applies the state update carried by the message (session binding) and
reports whether the update implies that negotiation is unnecessary. -/
def ParticipantEntity.updateState (p : ParticipantEntity) (m : CallMessageEntity) :
    ParticipantEntity × Bool :=
  ({ p with sessionId := m.sessionId.orElse fun _ => p.sessionId },
   m.impliesNegotiationUnnecessary)

/-- Outcome of the participant add/update operations: the result the promise
settles with, the updated call entity, and whether negotiation was started. -/
structure ParticipantOpResult where
  result : Except CallErrorType ParticipantEntity
  call : CallEntity
  negotiationStarted : Bool
deriving Repr

/-- Translation of CallEntity._updateParticipantState: applies the message
update, drops the negotiation request when the update makes it unnecessary,
and stores the updated participant back under its unchanged user id. -/
def CallEntity.updateParticipantState (c : CallEntity) (p : ParticipantEntity)
    (negotiate : Bool) (callMessageEntity : Option CallMessageEntity) :
    ParticipantOpResult :=
  let pair := match callMessageEntity with
    | some m => p.updateState m
    | none => (p, false)
  let negotiate1 := if pair.2 then false else negotiate
  let c1 := { c with
    participants := c.participants.map fun q => if q.id = p.id then pair.1 else q }
  { result := Except.ok pair.1, call := c1, negotiationStarted := negotiate1 }

/-- Translation of CallEntity._updateParticipant: verifies the client id of
the message against the participant when the message carries one, then applies
the participant state update. -/
def CallEntity.updateParticipant (c : CallEntity) (p : ParticipantEntity)
    (negotiate : Bool) (callMessageEntity : Option CallMessageEntity) :
    ParticipantOpResult :=
  match callMessageEntity with
  | some m =>
    match m.clientId with
    | some clientId =>
      match p.verifyClientId clientId with
      | Except.error e => { result := Except.error e, call := c, negotiationStarted := false }
      | Except.ok p1 => c.updateParticipantState p1 negotiate (some m)
    | none => c.updateParticipantState p negotiate (some m)
  | none => c.updateParticipantState p negotiate none

/-- Translation of CallEntity._addParticipant: rejects with WRONG_STATE when
the user to add is the self user, otherwise appends a fresh participant for
the resolved user and applies the participant state update. -/
def CallEntity.addParticipant (c : CallEntity) (userId : String)
    (negotiate : Bool) (callMessageEntity : Option CallMessageEntity) :
    ParticipantOpResult :=
  if userId = c.selfUserId then
    { result := Except.error CallErrorType.WRONG_STATE, call := c, negotiationStarted := false }
  else
    let p : ParticipantEntity :=
      { id := userId, clientId := none, sessionId := none, joaatHash := joaat userId
        panning := 0 }
    let c1 := { c with participants := c.participants ++ [p] }
    c1.updateParticipantState p negotiate callMessageEntity

/-- Translation of CallEntity.addOrUpdateParticipant: updates the present
participant, and on a NOT_FOUND lookup miss adds the participant instead; any
other lookup error propagates. -/
def CallEntity.addOrUpdateParticipant (c : CallEntity) (userId : String)
    (negotiate : Bool) (callMessageEntity : Option CallMessageEntity) :
    ParticipantOpResult :=
  match (c.getParticipantById userId).1 with
  | Except.ok p => c.updateParticipant p negotiate callMessageEntity
  | Except.error e =>
    if e = CallErrorType.NOT_FOUND then c.addParticipant userId negotiate callMessageEntity
    else { result := Except.error e, call := c, negotiationStarted := false }

/-- Translation of CallEntity._calculatePanning: a single participant sits in
the center, otherwise position index of numberOfParticipants participants is
panned to position + delta * index for
position = -(numberOfParticipants - 1) / (numberOfParticipants + 1) and
delta = -2 * position / (numberOfParticipants - 1). -/
def calculatePanning (index numberOfParticipants : Nat) : ℚ :=
  if numberOfParticipants == 1 then 0
  else
    let position : ℚ := -((numberOfParticipants : ℚ) - 1) / ((numberOfParticipants : ℚ) + 1)
    let delta : ℚ := (-2 * position) / ((numberOfParticipants : ℚ) - 1)
    position + delta * index

/-- Ascending order on participants by their JOAAT hash, the comparator of
the sort in CallEntity._sortParticipantsByPanning. -/
def hashLe (a b : ParticipantEntity) : Prop := a.joaatHash ≤ b.joaatHash

instance : DecidableRel hashLe := fun a b => Nat.decLe a.joaatHash b.joaatHash

instance : IsTotal ParticipantEntity hashLe := ⟨fun a b => Nat.le_total a.joaatHash b.joaatHash⟩

instance : IsTrans ParticipantEntity hashLe := ⟨fun _ _ _ h1 h2 => Nat.le_trans h1 h2⟩

/-- Helper of the panning assignment loop: writes calculatePanning (idx + i) n
into the participant at offset i. -/
def assignPanningFrom (n idx : Nat) : List ParticipantEntity → List ParticipantEntity
  | [] => []
  | p :: ps => { p with panning := calculatePanning idx n } :: assignPanningFrom n (idx + 1) ps

/-- Translation of CallEntity._sortParticipantsByPanning: with two or more
participants, sorts them ascending by JOAAT hash and assigns each sorted index
its calculated panning; with fewer participants nothing happens. -/
def CallEntity.sortParticipantsByPanning (c : CallEntity) : CallEntity :=
  if 2 ≤ c.participants.length then
    let sorted := List.insertionSort hashLe c.participants
    { c with participants := assignPanningFrom c.participants.length 0 sorted }
  else c

/-- States of the backend request queue (enum QUEUE_STATE, modelled from the
spec: the module is not among the sources). -/
inductive QUEUE_STATE where
  | READY
  | ACCESS_TOKEN_REFRESH
  | CONNECTIVITY_PROBLEM
deriving DecidableEq, Repr

/-- Request configuration: the fields of the AJAX config that the queueing
logic needs to distinguish requests. -/
structure RequestConfig where
  url : String
  method : String
deriving DecidableEq, Repr

/-- Modelled from the spec: PromiseQueue (Util/PromiseQueue, not among the
sources) is a FIFO queue of deferred operations that can be paused (no
dequeue) and resumed; unshift places an entry at the front, push at the
back. -/
structure PromiseQueue where
  paused : Bool
  entries : List RequestConfig
deriving DecidableEq, Repr

/-- Modelled from the spec: PromiseQueue.pause stops dequeueing. -/
def PromiseQueue.pause (q : PromiseQueue) : PromiseQueue :=
  { q with paused := true }

/-- Modelled from the spec: PromiseQueue.unshift places an entry at the front
of the queue. -/
def PromiseQueue.unshift (q : PromiseQueue) (x : RequestConfig) : PromiseQueue :=
  { q with entries := x :: q.entries }

/-- Mutable fields of BackendClient that the queueing logic touches. -/
structure BackendClient where
  queueState : QUEUE_STATE
  requestQueue : PromiseQueue
deriving DecidableEq, Repr

/-- Translation of BackendClient._prependRequestQueue: pauses the request
queue and re-enqueues the failed request at the front. -/
def BackendClient.prependRequestQueue (bc : BackendClient) (config : RequestConfig) :
    BackendClient :=
  { bc with requestQueue := (bc.requestQueue.pause).unshift config }

/-- Translation of the CONNECTIVITY_PROBLEM case of the failure handler in
BackendClient._sendRequest: sets the queue state to CONNECTIVITY_PROBLEM and
prepends the failed request to the paused queue (the subsequent connectivity
probe and queue resumption run asynchronously afterwards). -/
def BackendClient.onConnectivityProblem (bc : BackendClient) (config : RequestConfig) :
    BackendClient :=
  let bc1 := { bc with queueState := QUEUE_STATE.CONNECTIVITY_PROBLEM }
  bc1.prependRequestQueue config

/-- Conversation verification states (enum ConversationVerificationState). -/
inductive ConversationVerificationState where
  | VERIFIED
  | UNVERIFIED
  | DEGRADED
deriving DecidableEq, Repr

/-- Verification message types (enum VerificationMessageType). -/
inductive VerificationMessageType where
  | UNVERIFIED
  | NEW_DEVICE
  | NEW_MEMBER
deriving DecidableEq, Repr

/-- Conversation fields read and written by the verification state handler.
The device-verification aggregate is_verified is an observable that may be
undefined, hence an optional boolean. -/
structure Conversation where
  verification_state : ConversationVerificationState
  is_verified : Option Bool
deriving DecidableEq, Repr

/-- Translation of ConversationVerificationStateHandler._willChangeToDegraded:
an already degraded conversation never changes again; a conversation that is
in the VERIFIED state while its devices are explicitly unverified moves to
DEGRADED (or UNVERIFIED when no degradation warning should be shown) and the
change is reported. -/
def Conversation.willChangeToDegraded (c : Conversation)
    (shouldShowDegradationWarning : Bool) : Bool × Conversation :=
  if c.verification_state = ConversationVerificationState.DEGRADED then (false, c)
  else
    if c.verification_state = ConversationVerificationState.VERIFIED ∧
        c.is_verified = some false then
      (true,
       { c with verification_state :=
          if shouldShowDegradationWarning then ConversationVerificationState.DEGRADED
          else ConversationVerificationState.UNVERIFIED })
    else (false, c)

/-- Outcome of _checkChangeToDegraded: the conversation as left behind,
whether the handler threw the degraded-without-affected-users error, whether a
degradation event was injected, and the returned value (none models both the
thrown case and the undefined return). -/
structure DegradedCheckOutcome where
  conversation : Conversation
  threw : Bool
  injectedDegradedEvent : Bool
  result : Option Bool
deriving DecidableEq, Repr

/-- Translation of ConversationVerificationStateHandler._checkChangeToDegraded:
when the conversation degrades but the list of affected users is empty, the
verification state is force-set to VERIFIED and an error is thrown without
injecting an event; otherwise a degradation event is injected and true is
returned. -/
def Conversation.checkChangeToDegraded (c : Conversation) (userIds : List String)
    (type : VerificationMessageType) : DegradedCheckOutcome :=
  let shouldShowDegradationWarning := decide (type ≠ VerificationMessageType.UNVERIFIED)
  let pair := c.willChangeToDegraded shouldShowDegradationWarning
  if pair.1 then
    if userIds.length = 0 then
      { conversation :=
          { pair.2 with verification_state := ConversationVerificationState.VERIFIED }
        threw := true
        injectedDegradedEvent := false
        result := none }
    else
      { conversation := pair.2
        threw := false
        injectedDegradedEvent := true
        result := some true }
  else
    { conversation := pair.2
      threw := false
      injectedDegradedEvent := false
      result := none }

/-! Concrete sample data used by the witness theorems. -/

/-- Sample call message with no bound identifiers. -/
def sampleMessage : CallMessageEntity :=
  { clientId := none, sessionId := none, userId := none, impliesNegotiationUnnecessary := false }

/-- Sample call entity with an empty participant list. -/
def sampleCallBase : CallEntity :=
  { selfUserId := "self-user"
    creatingUserId := "creating-user"
    isGroup := false
    isConnected := false
    wasConnected := false
    state := CALL_STATE.INCOMING
    participants := []
    terminationReason := none
    groupCheckTimeout := none
    stateTimeoutPending := false }

/-- Sample participant with user id alice. -/
def sampleAlice : ParticipantEntity :=
  { id := "alice", clientId := none, sessionId := none, joaatHash := 7, panning := 0 }

/-- Sample participant with user id bob. -/
def sampleBob : ParticipantEntity :=
  { id := "bob", clientId := none, sessionId := none, joaatHash := 3, panning := 0 }

/-- Sample group call entity with two participants. -/
def sampleCallTwo : CallEntity :=
  { sampleCallBase with isGroup := true, participants := [sampleAlice, sampleBob] }

/-- C1: with zero participants, a self-triggered deactivateCall whose reason is
not GROUP_CHECK resolves true, stores the termination reason, deletes the call
exactly once, injects exactly one deactivation event whose reason is MISSED
when the call was never connected and COMPLETED otherwise, and neither
reschedules nor leaves behind a group-check heartbeat timer. -/
theorem deactivateCall_zero_participants_fromSelf (c : CallEntity)
    (m : CallMessageEntity) (reason : TERMINATION_REASON) (seed : Nat)
    (hP : c.participants = []) (_hR : reason ≠ TERMINATION_REASON.GROUP_CHECK) :
    (c.deactivateCall m true reason seed).wasDeleted = true ∧
    (c.deactivateCall m true reason seed).call.terminationReason = some reason ∧
    (c.deactivateCall m true reason seed).deleteCallCalls = 1 ∧
    (c.deactivateCall m true reason seed).injectedDeactivationEvents =
      [({ m with userId := some c.creatingUserId },
        if ¬ c.wasConnected then TERMINATION_REASON.MISSED else TERMINATION_REASON.COMPLETED)] ∧
    (c.deactivateCall m true reason seed).rescheduledGroupCheck = false ∧
    (c.deactivateCall m true reason seed).call.groupCheckTimeout = none := by
  simp [CallEntity.deactivateCall, CallEntity.clearTimeouts, CallEntity.clearStateTimeout,
    CallEntity.clearGroupCheckTimeout, CallEntity.deleteCallInternal, hP]

/-- C1 witness: the theorem applied to the sample empty call with reason
SELF_USER. -/
theorem deactivateCall_zero_participants_fromSelf_witness :
    (sampleCallBase.deactivateCall sampleMessage true TERMINATION_REASON.SELF_USER 0).wasDeleted
      = true :=
  (deactivateCall_zero_participants_fromSelf sampleCallBase sampleMessage
    TERMINATION_REASON.SELF_USER 0 rfl (by decide)).1

/-- C10: deactivateCall deletes the call and resolves true exactly when the
participant count is at most one for a self-triggered deactivation and at most
zero otherwise, or the reason is GROUP_CHECK; in particular one remaining
participant with fromSelf still deletes.  In every other case it resolves
false, reschedules the heartbeat exactly for group calls, resets the media
stream and never calls deleteCall. -/
theorem deactivateCall_delete_condition (c : CallEntity) (m : CallMessageEntity)
    (fromSelf : Bool) (reason : TERMINATION_REASON) (seed : Nat) :
    ((c.deactivateCall m fromSelf reason seed).wasDeleted = true ↔
      (c.participants.length ≤ (if fromSelf then 1 else 0) ∨
        reason = TERMINATION_REASON.GROUP_CHECK)) ∧
    (c.deactivateCall m fromSelf reason seed).deleteCallCalls =
      (if (c.deactivateCall m fromSelf reason seed).wasDeleted then 1 else 0) ∧
    (fromSelf = true → c.participants.length = 1 →
      (c.deactivateCall m fromSelf reason seed).wasDeleted = true) ∧
    (¬ (c.participants.length ≤ (if fromSelf then 1 else 0) ∨
          reason = TERMINATION_REASON.GROUP_CHECK) →
      (c.deactivateCall m fromSelf reason seed).wasDeleted = false ∧
      (c.deactivateCall m fromSelf reason seed).rescheduledGroupCheck = c.isGroup ∧
      (c.deactivateCall m fromSelf reason seed).mediaStreamReset = true ∧
      (c.deactivateCall m fromSelf reason seed).deleteCallCalls = 0) := by
  by_cases h : c.participants.length ≤ (if fromSelf then 1 else 0) ∨
      reason = TERMINATION_REASON.GROUP_CHECK
  · rcases h with h | h <;>
      simp [CallEntity.deactivateCall, CallEntity.clearTimeouts, CallEntity.clearStateTimeout,
        CallEntity.clearGroupCheckTimeout, CallEntity.deleteCallInternal, h]
  · have h1 : ¬ c.participants.length ≤ (if fromSelf then 1 else 0) := fun hc => h (Or.inl hc)
    have h2 : reason ≠ TERMINATION_REASON.GROUP_CHECK := fun hc => h (Or.inr hc)
    refine ⟨?_, ?_, ?_, ?_⟩
    · simp [CallEntity.deactivateCall, CallEntity.clearTimeouts, CallEntity.clearStateTimeout,
        CallEntity.clearGroupCheckTimeout, h1, h2, h]
    · simp [CallEntity.deactivateCall, CallEntity.clearTimeouts, CallEntity.clearStateTimeout,
        CallEntity.clearGroupCheckTimeout, h1, h2]
    · intro hf hl
      rw [hf] at h1
      simp only [if_true, hl] at h1
      omega
    · intro _
      simp [CallEntity.deactivateCall, CallEntity.clearTimeouts, CallEntity.clearStateTimeout,
        CallEntity.clearGroupCheckTimeout, h1, h2]

/-- C10 witness: the theorem applied to a self-triggered deactivation of the
sample call with exactly one remaining participant. -/
theorem deactivateCall_delete_condition_witness :
    (({ sampleCallBase with participants := [sampleAlice] } : CallEntity).deactivateCall
        sampleMessage true TERMINATION_REASON.SELF_USER 0).wasDeleted = true :=
  (deactivateCall_delete_condition { sampleCallBase with participants := [sampleAlice] }
    sampleMessage true TERMINATION_REASON.SELF_USER 0).2.2.1 rfl rfl

/-- C2: joinCall performs the transition into CONNECTING exactly when the
current state belongs to the CAN_CONNECT state group (for every choice of that
group and every media type); in the ineligible case the state is left
unchanged and no transition into CONNECTING happens. -/
theorem joinCall_connecting_iff_canConnect (c : CallEntity)
    (CAN_CONNECT : List CALL_STATE) (mediaType : MediaType) :
    (c.joinCall CAN_CONNECT mediaType).setConnecting = c.canConnectState CAN_CONNECT ∧
    (c.canConnectState CAN_CONNECT = true →
      (c.joinCall CAN_CONNECT mediaType).call.state = CALL_STATE.CONNECTING) ∧
    (c.canConnectState CAN_CONNECT = false →
      (c.joinCall CAN_CONNECT mediaType).call.state = c.state) ∧
    ((c.joinCall CAN_CONNECT mediaType).call.state = CALL_STATE.CONNECTING ↔
      (c.canConnectState CAN_CONNECT = true ∨ c.state = CALL_STATE.CONNECTING)) := by
  by_cases h : c.canConnectState CAN_CONNECT = true
  · simp [CallEntity.joinCall, h]
  · simp only [Bool.not_eq_true] at h
    simp [CallEntity.joinCall, h]

/-- C2 witness: the theorem applied to the sample incoming call with the
group containing INCOMING. -/
theorem joinCall_connecting_iff_canConnect_witness :
    (sampleCallBase.joinCall [CALL_STATE.INCOMING, CALL_STATE.ONGOING]
        MediaType.AUDIO).call.state = CALL_STATE.CONNECTING :=
  (joinCall_connecting_iff_canConnect sampleCallBase
    [CALL_STATE.INCOMING, CALL_STATE.ONGOING] MediaType.AUDIO).2.1 rfl

/-- C4: a request failing with the connectivity-problem status sets the queue
state to CONNECTIVITY_PROBLEM, pauses the request queue and re-enqueues the
failed request at the front, with every already queued request keeping its
relative FIFO order behind it. -/
theorem connectivityProblem_pauses_and_prepends (bc : BackendClient)
    (config : RequestConfig) :
    (bc.onConnectivityProblem config).queueState = QUEUE_STATE.CONNECTIVITY_PROBLEM ∧
    (bc.onConnectivityProblem config).requestQueue.paused = true ∧
    (bc.onConnectivityProblem config).requestQueue.entries =
      config :: bc.requestQueue.entries :=
  ⟨rfl, rfl, rfl⟩

/-- C8: scheduleGroupCheck always leaves exactly one group-check timer: the
send timer with a delay drawn from [MINIMUM_TIMEOUT, MAXIMUM_TIMEOUT] = [60,90]
seconds when the call is connected, and otherwise the verify timer with the
fixed ACTIVITY_TIMEOUT delay; any previously active timer is cancelled first,
so the resulting timer never depends on it. -/
theorem scheduleGroupCheck_single_timer (c : CallEntity) (seed : Nat) :
    (c.scheduleGroupCheck seed).groupCheckTimeout =
      some (if c.isConnected then
              GroupCheckTimer.send
                (getRandomNumber GROUP_CHECK_MINIMUM_TIMEOUT GROUP_CHECK_MAXIMUM_TIMEOUT seed)
            else GroupCheckTimer.verify GROUP_CHECK_ACTIVITY_TIMEOUT) ∧
    (∀ s : Nat,
      GROUP_CHECK_MINIMUM_TIMEOUT ≤
          getRandomNumber GROUP_CHECK_MINIMUM_TIMEOUT GROUP_CHECK_MAXIMUM_TIMEOUT s ∧
      getRandomNumber GROUP_CHECK_MINIMUM_TIMEOUT GROUP_CHECK_MAXIMUM_TIMEOUT s ≤
          GROUP_CHECK_MAXIMUM_TIMEOUT) ∧
    (∀ t0 : Option GroupCheckTimer,
      ({ c with groupCheckTimeout := t0 } : CallEntity).scheduleGroupCheck seed =
        c.scheduleGroupCheck seed) := by
  refine ⟨?_, ?_, ?_⟩
  · by_cases h : c.isConnected = true <;>
      simp_all [CallEntity.scheduleGroupCheck, CallEntity.clearGroupCheckTimeout,
        CallEntity.setSendGroupCheckTimeout, CallEntity.setVerifyGroupCheckTimeout]
  · intro s
    unfold getRandomNumber GROUP_CHECK_MINIMUM_TIMEOUT GROUP_CHECK_MAXIMUM_TIMEOUT
    omega
  · intro t0
    rfl

/-- C9: when a conversation would change to the degraded verification state
but the list of affected user ids is empty, the handler force-sets the
verification state to VERIFIED, throws the anomaly error, and injects no
degradation event. -/
theorem checkChangeToDegraded_empty_user_ids (c : Conversation)
    (type : VerificationMessageType)
    (hDegrades :
      (c.willChangeToDegraded (decide (type ≠ VerificationMessageType.UNVERIFIED))).1 = true) :
    (c.checkChangeToDegraded [] type).threw = true ∧
    (c.checkChangeToDegraded [] type).conversation.verification_state =
      ConversationVerificationState.VERIFIED ∧
    (c.checkChangeToDegraded [] type).injectedDegradedEvent = false ∧
    (c.checkChangeToDegraded [] type).result = none := by
  have hD : (c.willChangeToDegraded (! decide (type = VerificationMessageType.UNVERIFIED))).1
      = true := by
    simpa [ne_eq, decide_not] using hDegrades
  simp [Conversation.checkChangeToDegraded, hD]

/-- C9 witness: the theorem applied to a verified conversation with invariant
violation (devices explicitly unverified) on a NEW_DEVICE change without
affected users. -/
theorem checkChangeToDegraded_empty_user_ids_witness :
    (({ verification_state := ConversationVerificationState.VERIFIED,
        is_verified := some false } : Conversation).checkChangeToDegraded []
        VerificationMessageType.NEW_DEVICE).threw = true :=
  (checkChangeToDegraded_empty_user_ids
    { verification_state := ConversationVerificationState.VERIFIED, is_verified := some false }
    VerificationMessageType.NEW_DEVICE (by decide)).1

/-- Helper: when filtering yields a singleton, the first match of find? is
that element. -/
theorem find?_of_filter_singleton {α : Type} (pred : α → Bool) (a : α) :
    ∀ l : List α, l.filter pred = [a] → l.find? pred = some a := by
  intro l
  induction l with
  | nil => intro h; simp at h
  | cons x xs ih =>
    intro h
    cases hx : pred x with
    | true =>
      rw [List.filter_cons_of_pos hx] at h
      obtain ⟨hxa, -⟩ := List.cons_eq_cons.mp h
      subst hxa
      simp [List.find?, hx]
    | false =>
      rw [List.filter_cons_of_neg (by simp [hx])] at h
      simp only [List.find?, hx]
      exact ih h

/-- Helper: when filtering yields nothing, find? yields nothing. -/
theorem find?_of_filter_nil {α : Type} (pred : α → Bool) :
    ∀ l : List α, l.filter pred = [] → l.find? pred = none := by
  intro l
  induction l with
  | nil => intro _; rfl
  | cons x xs ih =>
    intro h
    cases hx : pred x with
    | true =>
      rw [List.filter_cons_of_pos hx] at h
      exact absurd h (List.cons_ne_nil x _)
    | false =>
      rw [List.filter_cons_of_neg (by simp [hx])] at h
      simp only [List.find?, hx]
      exact ih h

/-- C7: getParticipantById resolves with the unique participant carrying the
requested user id when exactly one is present, rejects with the NOT_FOUND call
error when none is, and in both cases leaves the participant set unchanged. -/
theorem getParticipantById_unique_or_not_found (c : CallEntity) (userId : String)
    (p : ParticipantEntity) :
    (c.participants.filter (fun q => q.id == userId) = [p] →
      (c.getParticipantById userId).1 = Except.ok p) ∧
    (c.participants.filter (fun q => q.id == userId) = [] →
      (c.getParticipantById userId).1 = Except.error CallErrorType.NOT_FOUND) ∧
    (c.getParticipantById userId).2 = c := by
  refine ⟨?_, ?_, rfl⟩
  · intro h
    unfold CallEntity.getParticipantById
    rw [find?_of_filter_singleton _ _ _ h]
  · intro h
    unfold CallEntity.getParticipantById
    rw [find?_of_filter_nil _ _ h]

/-- C7 witness: the theorem applied to the sample two-participant call, both
for a present unique user id and for an absent one. -/
theorem getParticipantById_unique_or_not_found_witness :
    (sampleCallTwo.getParticipantById "alice").1 = Except.ok sampleAlice ∧
    (sampleCallTwo.getParticipantById "carol").1 = Except.error CallErrorType.NOT_FOUND :=
  ⟨(getParticipantById_unique_or_not_found sampleCallTwo "alice" sampleAlice).1 (by decide),
   (getParticipantById_unique_or_not_found sampleCallTwo "carol" sampleAlice).2.1 (by decide)⟩

/-- Helper: updateState never changes the participant user id. -/
theorem updateState_id (p : ParticipantEntity) (m : CallMessageEntity) :
    (p.updateState m).1.id = p.id := rfl

/-- Helper: replacing the participant with a given id by a participant with
the same id does not change the user-id listing. -/
theorem map_id_replace (ps : List ParticipantEntity) (pid : String)
    (new : ParticipantEntity) (hnew : new.id = pid) :
    (ps.map fun q => if q.id = pid then new else q).map (fun q => q.id) =
      ps.map (fun q => q.id) := by
  induction ps with
  | nil => rfl
  | cons x xs ih =>
    simp only [List.map_cons, ih]
    by_cases hx : x.id = pid
    · simp [hx, hnew]
    · simp [hx]

/-- Helper: the participant state update leaves the user-id listing of the
participant set unchanged. -/
theorem updateParticipantState_ids (c : CallEntity) (p : ParticipantEntity)
    (negotiate : Bool) (m : Option CallMessageEntity) :
    (c.updateParticipantState p negotiate m).call.participants.map (fun q => q.id) =
      c.participants.map (fun q => q.id) := by
  cases m with
  | none =>
    simp only [CallEntity.updateParticipantState]
    exact map_id_replace _ _ _ rfl
  | some mm =>
    simp only [CallEntity.updateParticipantState]
    exact map_id_replace _ _ _ (updateState_id p mm)

/-- Helper: updating a present participant leaves the user-id listing of the
participant set unchanged. -/
theorem updateParticipant_ids (c : CallEntity) (p : ParticipantEntity)
    (negotiate : Bool) (m : Option CallMessageEntity) :
    (c.updateParticipant p negotiate m).call.participants.map (fun q => q.id) =
      c.participants.map (fun q => q.id) := by
  cases m with
  | none =>
    simp only [CallEntity.updateParticipant]
    exact updateParticipantState_ids c p negotiate none
  | some mm =>
    cases hc : mm.clientId with
    | none =>
      simp only [CallEntity.updateParticipant, hc]
      exact updateParticipantState_ids c p negotiate (some mm)
    | some clientId =>
      cases hv : p.verifyClientId clientId with
      | error e =>
        simp only [CallEntity.updateParticipant, hc, hv]
      | ok p1 =>
        simp only [CallEntity.updateParticipant, hc, hv]
        exact updateParticipantState_ids c p1 negotiate (some mm)

/-- Helper: adding a non-self participant appends exactly its user id to the
user-id listing of the participant set. -/
theorem addParticipant_ids (c : CallEntity) (userId : String) (negotiate : Bool)
    (m : Option CallMessageEntity) (hne : userId ≠ c.selfUserId) :
    (c.addParticipant userId negotiate m).call.participants.map (fun q => q.id) =
      c.participants.map (fun q => q.id) ++ [userId] := by
  unfold CallEntity.addParticipant
  rw [if_neg hne]
  rw [updateParticipantState_ids]
  simp

/-- C3: with no participant entry for the self user, addOrUpdateParticipant
for the self user id rejects with the WRONG_STATE call error and leaves the
participant set unchanged; moreover no add-or-update operation whatsoever can
make the participant set contain the self user. -/
theorem addOrUpdateParticipant_self_wrong_state (c : CallEntity) (negotiate : Bool)
    (m : Option CallMessageEntity)
    (hAbsent : ∀ p ∈ c.participants, p.id ≠ c.selfUserId) :
    (c.addOrUpdateParticipant c.selfUserId negotiate m).result =
      Except.error CallErrorType.WRONG_STATE ∧
    (c.addOrUpdateParticipant c.selfUserId negotiate m).call.participants = c.participants ∧
    (∀ (userId : String) (n : Bool) (mm : Option CallMessageEntity),
      c.selfUserId ∉
        (c.addOrUpdateParticipant userId n mm).call.participants.map (fun q => q.id)) := by
  have hfind : c.participants.find? (fun q => q.id == c.selfUserId) = none := by
    rw [List.find?_eq_none]
    intro x hx
    simp only [beq_iff_eq]
    exact hAbsent x hx
  have hself : c.addOrUpdateParticipant c.selfUserId negotiate m =
      { result := Except.error CallErrorType.WRONG_STATE, call := c,
        negotiationStarted := false } := by
    unfold CallEntity.addOrUpdateParticipant CallEntity.getParticipantById
    rw [hfind]
    simp [CallEntity.addParticipant]
  have hnotin : c.selfUserId ∉ c.participants.map (fun q => q.id) := by
    simp only [List.mem_map, not_exists]
    rintro p ⟨hp, hid⟩
    exact hAbsent p hp hid
  refine ⟨by rw [hself], by rw [hself], ?_⟩
  intro userId n mm
  unfold CallEntity.addOrUpdateParticipant CallEntity.getParticipantById
  cases hfind2 : c.participants.find? (fun q => q.id == userId) with
  | some p =>
    simpa [updateParticipant_ids] using hnotin
  | none =>
    by_cases hu : userId = c.selfUserId
    · simp only [reduceIte, CallEntity.addParticipant, hu, if_pos]
      exact hnotin
    · simp only [reduceIte]
      rw [addParticipant_ids c userId n mm hu]
      simp only [List.mem_append, List.mem_singleton]
      rintro (hin | heq)
      · exact hnotin hin
      · exact hu heq.symm

/-- C3 witness: the theorem applied to the sample two-participant call, where
the self user is absent. -/
theorem addOrUpdateParticipant_self_wrong_state_witness :
    (sampleCallTwo.addOrUpdateParticipant sampleCallTwo.selfUserId true none).result =
      Except.error CallErrorType.WRONG_STATE :=
  (addOrUpdateParticipant_self_wrong_state sampleCallTwo true none (by decide)).1

/-- Helper: closed form of the panning formula for at least two
participants. -/
theorem calculatePanning_closed (i n : Nat) (h2 : 2 ≤ n) :
    calculatePanning i n = ((2 : ℚ) * i - ((n : ℚ) - 1)) / ((n : ℚ) + 1) := by
  have hn : (2 : ℚ) ≤ (n : ℚ) := by exact_mod_cast h2
  have h1 : ((n : ℚ) - 1) ≠ 0 := by intro hc; linarith
  have hp1 : ((n : ℚ) + 1) ≠ 0 := by intro hc; linarith
  have hne : (n == 1) = false := by
    simp only [beq_eq_false_iff_ne, ne_eq]
    omega
  simp only [calculatePanning, hne, Bool.false_eq_true, if_false]
  field_simp
  ring

/-- Helper: the panning listing of the assignment starting at idx is the
panning formula applied to the positions idx, idx + 1, and so on. -/
theorem assignPanningFrom_map_panning (n : Nat) :
    ∀ (l : List ParticipantEntity) (idx : Nat),
      (assignPanningFrom n idx l).map (fun p => p.panning) =
        (List.range' idx l.length).map (fun i => calculatePanning i n) := by
  intro l
  induction l with
  | nil => intro idx; rfl
  | cons p ps ih =>
    intro idx
    simp only [assignPanningFrom, List.map_cons, List.length_cons, List.range'_succ]
    rw [ih (idx + 1)]

/-- Helper: every member of the panning assignment keeps the JOAAT hash of a
member of the input list. -/
theorem mem_assignPanningFrom (n : Nat) :
    ∀ (l : List ParticipantEntity) (idx : Nat) (q : ParticipantEntity),
      q ∈ assignPanningFrom n idx l → ∃ p ∈ l, q.joaatHash = p.joaatHash := by
  intro l
  induction l with
  | nil => intro idx q hq; simp [assignPanningFrom] at hq
  | cons p ps ih =>
    intro idx q hq
    simp only [assignPanningFrom, List.mem_cons] at hq
    rcases hq with hq | hq
    · exact ⟨p, List.mem_cons_self p ps, by rw [hq]⟩
    · obtain ⟨a, ha, hh⟩ := ih (idx + 1) q hq
      exact ⟨a, List.mem_cons_of_mem p ha, hh⟩

/-- Helper: the panning assignment preserves sortedness by JOAAT hash. -/
theorem sorted_assignPanningFrom (n : Nat) :
    ∀ (l : List ParticipantEntity) (idx : Nat),
      List.Sorted hashLe l → List.Sorted hashLe (assignPanningFrom n idx l) := by
  intro l
  induction l with
  | nil => intro idx _; exact List.Pairwise.nil
  | cons p ps ih =>
    intro idx hp
    rw [List.sorted_cons] at hp
    simp only [assignPanningFrom]
    rw [List.sorted_cons]
    constructor
    · intro b hb
      obtain ⟨a, ha, hh⟩ := mem_assignPanningFrom n ps (idx + 1) b hb
      show p.joaatHash ≤ b.joaatHash
      rw [hh]
      exact hp.1 a ha
    · exact ih (idx + 1) hp.2

/-- Helper: the panning assignment does not change user ids or hashes. -/
theorem assignPanningFrom_map_key (n : Nat) :
    ∀ (l : List ParticipantEntity) (idx : Nat),
      (assignPanningFrom n idx l).map (fun p => (p.id, p.joaatHash)) =
        l.map (fun p => (p.id, p.joaatHash)) := by
  intro l
  induction l with
  | nil => intro idx; rfl
  | cons p ps ih => intro idx; simp [assignPanningFrom, ih]

/-- C5: with at least two participants, sortParticipantsByPanning reorders the
participants ascending by their stable JOAAT user-identity hash (keeping
exactly the same users) and assigns sorted position i of n participants the
panning calculatePanning i n, which equals p + (-2p/(n-1)) * i for
p = -(n-1)/(n+1); a single participant gets panning exactly 0. -/
theorem panning_assignment_sorted_formula (c : CallEntity)
    (h2 : 2 ≤ c.participants.length) :
    (c.sortParticipantsByPanning).participants.map (fun p => p.panning) =
      (List.range c.participants.length).map
        (fun i => calculatePanning i c.participants.length) ∧
    List.Sorted hashLe (c.sortParticipantsByPanning).participants ∧
    List.Perm ((c.sortParticipantsByPanning).participants.map (fun p => (p.id, p.joaatHash)))
      (c.participants.map (fun p => (p.id, p.joaatHash))) ∧
    (∀ i : Nat, i < c.participants.length →
      calculatePanning i c.participants.length =
        -((c.participants.length : ℚ) - 1) / ((c.participants.length : ℚ) + 1) +
          -2 * (-((c.participants.length : ℚ) - 1) / ((c.participants.length : ℚ) + 1)) /
              ((c.participants.length : ℚ) - 1) * i) ∧
    (∀ i : Nat, calculatePanning i 1 = 0) := by
  have hr : (c.sortParticipantsByPanning).participants =
      assignPanningFrom c.participants.length 0 (List.insertionSort hashLe c.participants) := by
    simp [CallEntity.sortParticipantsByPanning, h2]
  simp only [hr]
  refine ⟨?_, ?_, ?_, ?_, fun i => rfl⟩
  · rw [assignPanningFrom_map_panning]
    have hlen : (List.insertionSort hashLe c.participants).length = c.participants.length :=
      (List.perm_insertionSort hashLe c.participants).length_eq
    rw [hlen, List.range_eq_range']
  · exact sorted_assignPanningFrom _ _ _
      (List.sorted_insertionSort hashLe c.participants)
  · rw [assignPanningFrom_map_key]
    exact List.Perm.map _ (List.perm_insertionSort hashLe c.participants)
  · intro i hi
    have hne : (c.participants.length == 1) = false := by
      simp only [beq_eq_false_iff_ne, ne_eq]
      omega
    simp only [calculatePanning, hne, Bool.false_eq_true, if_false]

/-- C5 witness: the theorem applied to the sample two-participant group call,
projected onto the panning formula at sorted position 1. -/
theorem panning_assignment_sorted_formula_witness :
    calculatePanning 1 sampleCallTwo.participants.length =
      -((sampleCallTwo.participants.length : ℚ) - 1) /
          ((sampleCallTwo.participants.length : ℚ) + 1) +
        -2 * (-((sampleCallTwo.participants.length : ℚ) - 1) /
            ((sampleCallTwo.participants.length : ℚ) + 1)) /
          ((sampleCallTwo.participants.length : ℚ) - 1) * (1 : Nat) :=
  (panning_assignment_sorted_formula sampleCallTwo (by decide)).2.2.2.1 1 (by decide)

/-- C6: for n at least 2 the n panning values all lie in [-1, 1], adjacent
sorted positions are separated by the constant delta 2/(n+1), and the value at
position i is the negation of the value at position n-1-i; a single
participant gets panning exactly 0. -/
theorem panning_range_spacing_symmetry (n : Nat) (h2 : 2 ≤ n) :
    (∀ i : Nat, i < n → -1 ≤ calculatePanning i n ∧ calculatePanning i n ≤ 1) ∧
    (∀ i : Nat, i + 1 < n →
      calculatePanning (i + 1) n - calculatePanning i n = 2 / ((n : ℚ) + 1)) ∧
    (∀ i : Nat, i < n → calculatePanning i n = - calculatePanning (n - 1 - i) n) ∧
    (∀ i : Nat, calculatePanning i 1 = 0) := by
  have hn : (2 : ℚ) ≤ (n : ℚ) := by exact_mod_cast h2
  have hp : (0 : ℚ) < (n : ℚ) + 1 := by linarith
  have hp1 : ((n : ℚ) + 1) ≠ 0 := ne_of_gt hp
  refine ⟨?_, ?_, ?_, fun i => rfl⟩
  · intro i hi
    rw [calculatePanning_closed i n h2]
    have hsucc : i + 1 ≤ n := hi
    have hiq : (i : ℚ) + 1 ≤ (n : ℚ) := by exact_mod_cast hsucc
    have hi0 : (0 : ℚ) ≤ (i : ℚ) := Nat.cast_nonneg i
    constructor
    · rw [le_div_iff₀ hp]
      linarith
    · rw [div_le_one hp]
      linarith
  · intro i hi
    rw [calculatePanning_closed (i + 1) n h2, calculatePanning_closed i n h2]
    push_cast
    field_simp
    ring
  · intro i hi
    rw [calculatePanning_closed i n h2, calculatePanning_closed (n - 1 - i) n h2]
    have hle : i ≤ n - 1 := by omega
    have h1n : 1 ≤ n := by omega
    have hcast : ((n - 1 - i : Nat) : ℚ) = (n : ℚ) - 1 - (i : ℚ) := by
      rw [Nat.cast_sub hle, Nat.cast_sub h1n, Nat.cast_one]
    rw [hcast]
    field_simp
    ring

/-- C6 witness: the theorem applied at n = 4, projected onto the range bounds
at position 1. -/
theorem panning_range_spacing_symmetry_witness :
    -1 ≤ calculatePanning 1 4 ∧ calculatePanning 1 4 ≤ 1 :=
  (panning_range_spacing_symmetry 4 (by norm_num)).1 1 (by norm_num)

end Wire
